import Mathlib

/-!
Shallow embedding of the replay/state-projection and strategy-heuristics
engine of a race-analytics dashboard (strategy_calculator.py,
race_simulator.py, weather_analyzer.py), together with theorems settling
the specification claims about it.

Tables are lists of typed rows plus booleans recording which columns are
present (the source branches on `col in df.columns`).  A pandas `NaN`
cell is modelled as `Option.none`; lap times are rationals.  Aggregations
(`median`, `mean`, `min`, `max`) follow pandas semantics: `NaN` values
are skipped, and the aggregate of an all-`NaN`/empty column is `NaN`
(here `none`).
-/

/-- Stable insertion of `x` into `l` under the boolean order `le`:
`x` goes before the first element it compares `le` to. -/
def insertLe {α : Type} (le : α → α → Bool) (x : α) : List α → List α
  | [] => [x]
  | y :: ys => if le x y then x :: y :: ys else y :: insertLe le x ys

/-- Stable insertion sort under the boolean order `le` (models the
deterministic ascending ordering produced by `DataFrame.sort_values`). -/
def sortLe {α : Type} (le : α → α → Bool) : List α → List α
  | [] => []
  | x :: xs => insertLe le x (sortLe le xs)

/-- Accumulator loop behind `uniqInts`: `acc` holds the values already
seen, most recent first. -/
def uniqIntsGo : List Int → List Int → List Int
  | acc, [] => acc.reverse
  | acc, x :: xs => if x ∈ acc then uniqIntsGo acc xs else uniqIntsGo (x :: acc) xs

/-- First occurrences of each value, in encounter order
(models `Series.unique()`). -/
def uniqInts (l : List Int) : List Int :=
  uniqIntsGo [] l

/-- Median of an already ascending list of rationals: middle element for
odd length, mean of the two middle elements for even length, `none` when
empty (pandas `Series.median` after dropping `NaN`). -/
def medianSorted (l : List ℚ) : Option ℚ :=
  if l.length = 0 then none
  else if l.length % 2 = 1 then l.get? (l.length / 2)
  else
    match l.get? (l.length / 2 - 1), l.get? (l.length / 2) with
    | some a, some b => some ((a + b) / 2)
    | _, _ => none

/-- pandas `Series.median()`: drop `NaN` cells, sort, take the median;
`NaN` (`none`) when no value remains. -/
def pandasMedian (l : List (Option ℚ)) : Option ℚ :=
  medianSorted (sortLe (fun a b => decide (a ≤ b)) (l.filterMap id))

/-- pandas `Series.min()`: minimum over non-`NaN` cells, `NaN` when none. -/
def pandasMin (l : List (Option ℚ)) : Option ℚ :=
  (l.filterMap id).min?

/-- pandas `Series.max()`: maximum over non-`NaN` cells, `NaN` when none. -/
def pandasMax (l : List (Option ℚ)) : Option ℚ :=
  (l.filterMap id).max?

/-- pandas `Series.mean()`: mean over non-`NaN` cells, `NaN` when none. -/
def pandasMean (l : List (Option ℚ)) : Option ℚ :=
  let v := l.filterMap id
  if v.length = 0 then none else some (v.sum / (v.length : ℚ))

/-- Python `int()` on a real: truncation toward zero. -/
def pyInt (q : ℚ) : Int :=
  if 0 ≤ q then ⌊q⌋ else -⌊-q⌋

/-- Python `//` on integers: floor division. -/
def pyFloorDiv (a b : Int) : Int :=
  Int.fdiv a b

/-- One row of the lap table: driver number (`NUMBER`), `LAP_NUMBER`,
and `LAP_TIME_SEC` (`none` models a `NaN` cell). -/
structure LapRow where
  number : Int
  lap_number : Int
  lap_time : Option ℚ
deriving DecidableEq

/-- The lap table: its rows plus flags recording which columns exist
(the source guards every access with `col in df.columns`). -/
structure LapTable where
  rows : List LapRow
  hasNumberCol : Bool
  hasLapNumberCol : Bool
  hasLapTimeCol : Bool
deriving DecidableEq

/-- A derived degradation point (`DEGRADATION_PCT` row emitted by
`StrategyCalculator.calculate_tire_degradation`). -/
structure DegPoint where
  number : Int
  lap_number : Int
  lap_time : ℚ
  baseline : ℚ
  degradation : ℚ
  degradation_pct : ℚ
deriving DecidableEq

/-- Row order used by `sort_values('LAP_NUMBER')`. -/
def lapNumLe (a b : LapRow) : Bool :=
  decide (a.lap_number ≤ b.lap_number)

/-- A driver's rows, sorted ascending by lap number, with `NaN` lap
times dropped afterwards — exactly the `driver_laps` frame of
`calculate_tire_degradation` (the source filters only `notna()` here;
it does NOT drop non-positive lap times at this stage). -/
def validLapsOf (rows : List LapRow) (n : Int) : List LapRow :=
  (sortLe lapNumLe (rows.filter (fun r => decide (r.number = n)))).filter
    (fun r => r.lap_time.isSome)

/-- The baseline: median of the lap times of the first `min 5 len`
retained laps (`iloc[:min(5, len)]` then `.median()`). -/
def baselineOf (rows : List LapRow) (n : Int) : Option ℚ :=
  pandasMedian (((validLapsOf rows n).take 5).map (fun r => r.lap_time))

/-- The degradation points one driver contributes: none unless at least
3 retained laps and a positive baseline; one point per retained lap with
positive lap time, against the fixed baseline. -/
def driverPoints (rows : List LapRow) (n : Int) : List DegPoint :=
  let dl := validLapsOf rows n
  if dl.length < 3 then []
  else
    match baselineOf rows n with
    | none => []
    | some b =>
      if b ≤ 0 then []
      else
        dl.filterMap (fun r =>
          match r.lap_time with
          | some t =>
            if 0 < t then
              some ⟨n, r.lap_number, t, b, t - b, (t - b) / b * 100⟩
            else none
          | none => none)

/-- The row selection the degradation loop runs over: the Python
truthiness test `if driver_number:` means a filter value of `0` (like
`None`) applies no filter at all. -/
def degradationData (t : LapTable) (driver_number : Option Int) :
    List LapRow :=
  match driver_number with
  | some d => if d ≠ 0 then t.rows.filter (fun r => decide (r.number = d)) else t.rows
  | none => t.rows

/-- `StrategyCalculator.calculate_tire_degradation`: per-driver
degradation series over the (optionally filtered) lap table. -/
def calculate_tire_degradation (t : LapTable) (driver_number : Option Int) :
    List DegPoint :=
  if t.rows = [] then []
  else if ¬ t.hasNumberCol then []
  else
    let data := degradationData t driver_number
    if ¬ t.hasLapTimeCol ∨ ¬ t.hasLapNumberCol then []
    else (uniqInts (data.map (fun r => r.number))).flatMap (driverPoints data)

/-- `PitRecommendation` result dictionary of
`StrategyCalculator.recommend_pit_window`; keys absent from a branch's
dictionary are `none`. -/
structure PitRec where
  recommended_lap : Int
  reason : String
  urgency : String
  critical_lap : Option Int
  current_degradation : Option ℚ
  laps_remaining : Option Int
deriving DecidableEq

/-- `StrategyCalculator.recommend_pit_window` with its policy constants:
2.0% critical threshold, 20-lap tire life, 2-lap pit buffer. -/
def recommend_pit_window (t : LapTable) (driver_number : Int)
    (current_lap : Int) (total_laps : Int) : PitRec :=
  let degradation := calculate_tire_degradation t (some driver_number)
  if degradation = [] then
    ⟨current_lap + 10, "Insufficient data", "low", none, none, none⟩
  else
    let dd := degradation.filter (fun p => decide (p.number = driver_number))
    if dd = [] then
      ⟨current_lap + 10, "No degradation data", "low", none, none, none⟩
    else
      let critical := dd.filter (fun p => decide (p.degradation_pct > 2))
      match (critical.map (fun p => p.lap_number)).min? with
      | some critical_lap =>
        ⟨max current_lap (critical_lap - 2),
         "Tire degradation at 2.0% threshold",
         if critical_lap - current_lap ≤ 3 then "high" else "medium",
         some critical_lap,
         (dd.getLast?).map (fun p => p.degradation_pct),
         some (critical_lap - current_lap)⟩
      | none =>
        ⟨min (current_lap + 20) (pyFloorDiv total_laps 2),
         "Optimal tire life window", "low", none, none,
         some (min (current_lap + 20) (pyFloorDiv total_laps 2) - current_lap)⟩

/-- `UndercutAssessment` result dictionary of
`StrategyCalculator.calculate_undercut_overtake`; keys absent from a
branch's dictionary are `none`; `NaN` arithmetic results are `none`. -/
structure UndercutRes where
  feasible : Bool
  reason : Option String
  current_position : Option Int
  target_position : Option Int
  gap_to_target : Option ℚ
  potential_gain : Option ℚ
  net_advantage : Option ℚ
  recommendation : Option String
deriving DecidableEq

/-- Infeasible sentinel dictionary `{'feasible': False, 'reason': r}`. -/
def infeasibleRes (r : String) : UndercutRes :=
  ⟨false, some r, none, none, none, none, none, none⟩

/-- Row order used by `sort_values('LAP_TIME_SEC')`: ascending lap time
with `NaN` sorted last. -/
def timeLe (a b : Option ℚ) : Bool :=
  match a, b with
  | some x, some y => decide (x ≤ y)
  | some _, none => true
  | none, some _ => false
  | none, none => true

/-- The current-lap rows together with their `position` column: present
(1-based rank after the ascending lap-time sort) only when the
`LAP_TIME_SEC` column exists, since the source adds `position` inside
`if 'LAP_TIME_SEC' in ...columns:`. -/
def rankRows (hasTimeCol : Bool) (cur : List LapRow) :
    List (LapRow × Option Int) :=
  if hasTimeCol then
    (sortLe (fun a b => timeLe a.lap_time b.lap_time) cur).enum.map
      (fun p => (p.2, some ((p.1 : Int) + 1)))
  else cur.map (fun r => (r, none))

/-- The rows of the queried current lap
(`lap_data[lap_data['LAP_NUMBER'] == current_lap]`). -/
def currentLapRows (t : LapTable) (current_lap : Int) : List LapRow :=
  t.rows.filter (fun r => decide (r.lap_number = current_lap))

/-- The current-lap rows with their positions, as the undercut
calculator sees them. -/
def rankedCurrent (t : LapTable) (current_lap : Int) :
    List (LapRow × Option Int) :=
  rankRows t.hasLapTimeCol (currentLapRows t current_lap)

/-- `StrategyCalculator.calculate_undercut_overtake`.  Column accesses
the source does not guard raise `KeyError` on a missing column; these
surface as `Except.error`.  Constants: 0.5 s/lap fresh-tire gain over a
2-lap window, 30.0 s pit-stop loss. -/
def calculate_undercut_overtake (t : LapTable) (driver_number : Int)
    (target_position : Int) (current_lap : Int) :
    Except String UndercutRes :=
  if t.rows = [] then .ok (infeasibleRes "No data")
  else if ¬ t.hasLapNumberCol then .error "KeyError: LAP_NUMBER"
  else
    let cur := currentLapRows t current_lap
    if cur = [] then .ok (infeasibleRes "No current lap data")
    else
      let ranked := rankRows t.hasLapTimeCol cur
      if ¬ t.hasNumberCol then .error "KeyError: NUMBER"
      else
        match (ranked.filter (fun p => decide (p.1.number = driver_number))).head? with
        | none => .ok (infeasibleRes "Driver not found")
        | some (drow, dposOpt) =>
          match dposOpt with
          | none => .error "KeyError: position"
          | some dpos =>
            if dpos ≤ target_position then
              .ok (infeasibleRes "Already at or ahead of target")
            else
              match (ranked.filter (fun p => decide (p.2 = some target_position))).head? with
              | none => .ok (infeasibleRes "Target position not found")
              | some (trow, _) =>
                let gap : Option ℚ :=
                  match drow.lap_time, trow.lap_time with
                  | some a, some b => some (a - b)
                  | _, _ => none
                let feasible :=
                  match gap with
                  | some g => decide ((1 : ℚ) > g + 30)
                  | none => false
                .ok ⟨feasible, none, some dpos, some target_position, gap,
                     some 1, gap.map (fun g => 1 - g - 30),
                     some (if feasible then "Pit now for undercut"
                           else "Stay out, gap too large")⟩

/-- Mutable session state of `RaceSimulator`: the cached current lap,
the wall-clock reference instant captured by `start_simulation`
(`none` while stopped), and the speed multiplier.  Wall-clock instants
are rational seconds. -/
structure SimState where
  current_lap : Int
  sim_start : Option ℚ
  speed_multiplier : ℚ
deriving DecidableEq

/-- Fresh simulator state from `RaceSimulator.__init__`. -/
def initSimState : SimState :=
  ⟨1, none, 1⟩

/-- `RaceSimulator.start_simulation`: capture the wall-clock reference
instant `now`, set the speed multiplier, reset the current lap to 1. -/
def start_simulation (speed_multiplier : ℚ) (now : ℚ) : SimState :=
  ⟨1, some now, speed_multiplier⟩

/-- The projection part of the race-state dictionary that the claims
address: the projected current lap and the simulated elapsed race time. -/
structure RaceState where
  current_lap : Int
  elapsed_time : ℚ
deriving DecidableEq

/-- Upper clamp for the projected lap: the maximum `LAP_NUMBER` present,
or 50 when that column is absent. -/
def lapCap (t : LapTable) : Int :=
  if t.hasLapNumberCol then ((t.rows.map (fun r => r.lap_number)).max?).getD 0
  else 50

/-- `RaceSimulator.get_current_race_state` at wall-clock instant `now`:
returns the updated state plus the projection, or `none` (the empty
dictionary) when the simulation was never started.  The cached lap is
only overwritten when the table is non-empty, the `LAP_TIME_SEC` column
exists and the pandas median of that column is a positive number. -/
def get_current_race_state (t : LapTable) (s : SimState) (now : ℚ) :
    SimState × Option RaceState :=
  match s.sim_start with
  | none => (s, none)
  | some st =>
    let elapsed_race := (now - st) * s.speed_multiplier
    let new_lap :=
      if t.rows ≠ [] ∧ t.hasLapTimeCol then
        match pandasMedian (t.rows.map (fun r => r.lap_time)) with
        | some m =>
          if 0 < m then min (pyInt (elapsed_race / m) + 1) (lapCap t)
          else s.current_lap
        | none => s.current_lap
      else s.current_lap
    ({ s with current_lap := new_lap },
     some ⟨new_lap, elapsed_race⟩)

/-- Statistics dictionary of `RaceSimulator.get_driver_stats`
(the fields the claims address). -/
structure DriverStats where
  driver_number : Int
  laps_completed : Nat
  best_lap : Option ℚ
  avg_lap : Option ℚ
  last_lap : Option ℚ
deriving DecidableEq

/-- `RaceSimulator.get_driver_stats`: aggregates over the driver's rows
up to the cached current lap; `none` models the empty dictionary when
the driver has no such rows. -/
def get_driver_stats (t : LapTable) (s : SimState) (driver_number : Int) :
    Option DriverStats :=
  let dd := t.rows.filter (fun r =>
    decide (r.number = driver_number) && decide (r.lap_number ≤ s.current_lap))
  if dd = [] then none
  else
    some ⟨driver_number, dd.length,
      if t.hasLapTimeCol then pandasMin (dd.map (fun r => r.lap_time)) else none,
      if t.hasLapTimeCol then pandasMean (dd.map (fun r => r.lap_time)) else none,
      if t.hasLapTimeCol then (dd.getLast?).bind (fun r => r.lap_time) else none⟩

/-- One row of the weather table; `none` models a `NaN` cell. -/
structure WeatherRow where
  air_temp : Option ℚ
  humidity : Option ℚ
  wind_speed : Option ℚ
  rain : Bool
deriving DecidableEq

/-- The weather table with its column-presence flags. -/
structure WeatherTable where
  rows : List WeatherRow
  hasAirTempCol : Bool
  hasHumidityCol : Bool
  hasWindCol : Bool
  hasRainCol : Bool
deriving DecidableEq

/-- `WeatherImpactSummary` of `WeatherAnalyzer.analyze_weather_impact`.
For `temperature_trend` and `temperature_range` the outer `Option`
records whether the key was added to the dictionary at all; the inner
value of `temperature_range` is `none` when it is `NaN`. -/
structure WeatherSummary where
  avg_temp : Option ℚ
  max_temp : Option ℚ
  min_temp : Option ℚ
  avg_humidity : Option ℚ
  avg_wind_speed : Option ℚ
  rain_occurred : Bool
  temperature_trend : Option String
  temperature_range : Option (Option ℚ)
deriving DecidableEq

/-- `WeatherAnalyzer.analyze_weather_impact`: `none` is the empty
dictionary returned when either table is empty.  The trend/range keys
are only added when both lap columns exist and the lap table groups into
more than one distinct lap number; `NaN > NaN` is false in Python, so an
undefined temperature extreme yields the trend `"decreasing"`. -/
def analyze_weather_impact (w : WeatherTable) (t : LapTable) :
    Option WeatherSummary :=
  if w.rows = [] ∨ t.rows = [] then none
  else
    let maxT := if w.hasAirTempCol then pandasMax (w.rows.map (fun r => r.air_temp)) else none
    let minT := if w.hasAirTempCol then pandasMin (w.rows.map (fun r => r.air_temp)) else none
    let base : WeatherSummary :=
      ⟨if w.hasAirTempCol then pandasMean (w.rows.map (fun r => r.air_temp)) else none,
       maxT, minT,
       if w.hasHumidityCol then pandasMean (w.rows.map (fun r => r.humidity)) else none,
       if w.hasWindCol then pandasMean (w.rows.map (fun r => r.wind_speed)) else none,
       if w.hasRainCol then w.rows.any (fun r => r.rain) else false,
       none, none⟩
    if t.hasLapTimeCol ∧ t.hasLapNumberCol ∧
        1 < (uniqInts (t.rows.map (fun r => r.lap_number))).length then
      some { base with
        temperature_trend := some
          (match maxT, minT with
           | some mx, some mn => if mx > mn then "increasing" else "decreasing"
           | _, _ => "decreasing"),
        temperature_range := some
          (match maxT, minT with
           | some mx, some mn => some (mx - mn)
           | _, _ => none) }
    else some base

/-- Forecast-impact dictionary of
`WeatherAnalyzer.get_weather_forecast_impact`. -/
structure ForecastImpact where
  forecasted_temp : ℚ
  forecasted_humidity : ℚ
  current_temp : ℚ
  current_humidity : ℚ
  temp_change : ℚ
  humidity_change : ℚ
  estimated_lap_time_impact : ℚ
deriving DecidableEq

/-- The current average air temperature: `NaN` (`none`) when the
`AIR_TEMP` column is absent or holds no value. -/
def currentAvgTemp (w : WeatherTable) : Option ℚ :=
  if w.hasAirTempCol then pandasMean (w.rows.map (fun r => r.air_temp)) else none

/-- The current average humidity: `NaN` (`none`) when the `HUMIDITY`
column is absent or holds no value. -/
def currentAvgHumidity (w : WeatherTable) : Option ℚ :=
  if w.hasHumidityCol then pandasMean (w.rows.map (fun r => r.humidity)) else none

/-- `WeatherAnalyzer.get_weather_forecast_impact`: `none` is the empty
dictionary, returned when the weather table is empty or either current
average is `NaN` (including when its column is absent). -/
def get_weather_forecast_impact (w : WeatherTable)
    (forecast_temp forecast_humidity : ℚ) : Option ForecastImpact :=
  if w.rows = [] then none
  else
    match currentAvgTemp w, currentAvgHumidity w with
    | some a, some h =>
      some ⟨forecast_temp, forecast_humidity, a, h,
        forecast_temp - a, forecast_humidity - h,
        (forecast_temp - a) * (1 / 10) + (forecast_humidity - h) / 10 * (1 / 20)⟩
    | _, _ => none

/-- Written from the spec's invariant, for comparison with the source:
a lap-time cell is VALID when it is present and strictly positive;
`specValid` maps an invalid cell to `none`. -/
def specValid (q : Option ℚ) : Option ℚ :=
  q.bind (fun x => if 0 < x then some x else none)

/-- Written from the spec's words: the median over the VALID lap times
of the table — what the spec calls `median_valid_lap_time`. -/
def specValidMedian (t : LapTable) : Option ℚ :=
  pandasMedian ((t.rows.map (fun r => r.lap_time)).map specValid)

/-- Written from the spec's words: how many VALID laps a driver has. -/
def specValidCount (rows : List LapRow) (n : Int) : Nat :=
  ((rows.filter (fun r => decide (r.number = n))).filterMap
    (fun r => specValid r.lap_time)).length

/-! ## Helper lemmas -/

theorem mem_uniqIntsGo {x : Int} :
    ∀ (l acc : List Int), x ∈ uniqIntsGo acc l → x ∈ acc ∨ x ∈ l
  | [], acc, h => by
    rw [uniqIntsGo] at h
    exact Or.inl (List.mem_reverse.mp h)
  | y :: ys, acc, h => by
    rw [uniqIntsGo] at h
    split at h
    · rcases mem_uniqIntsGo ys acc h with h1 | h1
      · exact Or.inl h1
      · exact Or.inr (List.mem_cons_of_mem _ h1)
    · rcases mem_uniqIntsGo ys (y :: acc) h with h1 | h1
      · rcases List.mem_cons.mp h1 with h2 | h2
        · exact Or.inr (h2 ▸ List.mem_cons_self _ _)
        · exact Or.inl h2
      · exact Or.inr (List.mem_cons_of_mem _ h1)

theorem mem_uniqInts {l : List Int} {x : Int} (h : x ∈ uniqInts l) : x ∈ l := by
  rcases mem_uniqIntsGo l [] h with h1 | h1
  · simp at h1
  · exact h1

/-- Everything a membership in `driverPoints` tells us: the driver had
at least 3 retained laps, the baseline was defined and positive, and the
point's fields recompute from its lap time and that baseline. -/
theorem mem_driverPoints {rows : List LapRow} {n : Int} {p : DegPoint}
    (h : p ∈ driverPoints rows n) :
    p.number = n ∧ 3 ≤ (validLapsOf rows n).length ∧
    ∃ b, baselineOf rows n = some b ∧ 0 < b ∧ p.baseline = b ∧
      0 < p.lap_time ∧ p.degradation = p.lap_time - b ∧
      p.degradation_pct = (p.lap_time - b) / b * 100 := by
  by_cases h3 : (validLapsOf rows n).length < 3
  · simp [driverPoints, h3] at h
  · rcases hb : baselineOf rows n with _ | b
    · simp [driverPoints, h3, hb] at h
    · by_cases hb0 : b ≤ 0
      · simp [driverPoints, h3, hb, hb0] at h
      · simp only [driverPoints, h3, if_false, hb, hb0, ite_false] at h
        rw [List.mem_filterMap] at h
        obtain ⟨r, _, heq⟩ := h
        rcases hrt : r.lap_time with _ | t
        · rw [hrt] at heq
          simp at heq
        · simp only [hrt] at heq
          by_cases ht : 0 < t
          · rw [if_pos ht, Option.some_inj] at heq
            subst heq
            exact ⟨rfl, Nat.le_of_not_lt h3,
              b, rfl, lt_of_not_le hb0, rfl, ht, rfl, rfl⟩
          · rw [if_neg ht] at heq
            simp at heq

/-- A point in the estimator's output belongs to its own driver's
contribution over the selected data. -/
theorem mem_calculate_tire_degradation {t : LapTable} {dn : Option Int}
    {p : DegPoint} (h : p ∈ calculate_tire_degradation t dn) :
    p ∈ driverPoints (degradationData t dn) p.number := by
  simp only [calculate_tire_degradation] at h
  split at h
  · simp at h
  · split at h
    · simp at h
    · split at h
      · simp at h
      · rw [List.mem_flatMap] at h
        obtain ⟨m, _, hp⟩ := h
        have hn := (mem_driverPoints hp).1
        rwa [hn]

/-! ## Claim C10 -/

/-- C10: calling the Degradation Estimator with `driver_number = 0`
applies no per-driver filter (Python truthiness), so the output is the
same as the unfiltered call; for every positive `driver_number` every
emitted point belongs to that driver. -/
theorem C10_zero_driver_filter (t : LapTable) :
    calculate_tire_degradation t (some 0) = calculate_tire_degradation t none ∧
    ∀ d : Int, 0 < d → ∀ p ∈ calculate_tire_degradation t (some d),
      p.number = d := by
  constructor
  · simp [calculate_tire_degradation, degradationData]
  · intro d hd p hp
    simp only [calculate_tire_degradation] at hp
    split at hp
    · simp at hp
    · split at hp
      · simp at hp
      · split at hp
        · simp at hp
        · rw [List.mem_flatMap] at hp
          obtain ⟨m, hm, hpp⟩ := hp
          have hmem := mem_uniqInts hm
          rw [List.mem_map] at hmem
          obtain ⟨r, hr, hrn⟩ := hmem
          have hdata : degradationData t (some d) =
              t.rows.filter (fun r => decide (r.number = d)) := by
            simp only [degradationData]
            rw [if_pos (show d ≠ 0 by omega)]
          rw [hdata, List.mem_filter] at hr
          have hrd : r.number = d := by simpa using hr.2
          have hpn := (mem_driverPoints hpp).1
          omega

/-- Concrete two-driver table exercising C10. -/
def tableC10 : LapTable :=
  ⟨[⟨1, 1, some 90⟩, ⟨1, 2, some 90⟩, ⟨1, 3, some 90⟩,
    ⟨2, 1, some 80⟩], true, true, true⟩

/-- Witness for C10: on `tableC10` the `driver_number = 0` call equals
the unfiltered call, and with filter `1` a concrete emitted point
carries driver number 1. -/
theorem C10_zero_driver_filter_witness :
    (calculate_tire_degradation tableC10 (some 0) =
      calculate_tire_degradation tableC10 none) ∧
    (0 : Int) < 1 ∧
    (⟨1, 1, 90, 90, 0, 0⟩ : DegPoint) ∈
      calculate_tire_degradation tableC10 (some 1) ∧
    (⟨1, 1, 90, 90, 0, 0⟩ : DegPoint).number = 1 := by
  have hmem : (⟨1, 1, 90, 90, 0, 0⟩ : DegPoint) ∈
      calculate_tire_degradation tableC10 (some 1) := by
    rw [show calculate_tire_degradation tableC10 (some 1) =
        [⟨1, 1, 90, 90, 0, 0⟩, ⟨1, 2, 90, 90, 0, 0⟩, ⟨1, 3, 90, 90, 0, 0⟩] from by
      norm_num [tableC10, calculate_tire_degradation, degradationData,
        driverPoints, validLapsOf, baselineOf, pandasMedian, medianSorted,
        sortLe, insertLe, uniqInts, uniqIntsGo, lapNumLe]
      rw [if_neg (List.cons_ne_nil _ _)]
      norm_num [List.filterMap]]
    exact List.mem_cons_self _ _
  exact ⟨(C10_zero_driver_filter tableC10).1, by norm_num, hmem,
    (C10_zero_driver_filter tableC10).2 1 (by norm_num) _ hmem⟩

/-! ## Claim C1 -/

/-- Counterexample to C1 as stated: driver 1 has only 2 VALID laps in
the spec's sense (`lap_time` present and positive — the lap-1 time is
0), so the claim says the driver contributes no points; the code counts
3 `notna` laps, computes baseline 100 as the median of `[0, 100, 101]`,
and emits two points. -/
theorem C1_counterexample :
    specValidCount [⟨1, 1, some 0⟩, ⟨1, 2, some 100⟩, ⟨1, 3, some 101⟩] 1 < 3 ∧
    calculate_tire_degradation
        ⟨[⟨1, 1, some 0⟩, ⟨1, 2, some 100⟩, ⟨1, 3, some 101⟩],
          true, true, true⟩ (some 1) =
      [⟨1, 2, 100, 100, 0, 0⟩, ⟨1, 3, 101, 100, 1, 1⟩] := by
  constructor
  · decide
  · norm_num [calculate_tire_degradation, degradationData, driverPoints,
      validLapsOf, baselineOf, pandasMedian, medianSorted, sortLe, insertLe,
      uniqInts, uniqIntsGo, lapNumLe]
    rw [if_neg (List.cons_ne_nil _ _)]
    norm_num [List.filterMap]

/-- C1 (amended): reading "valid" as the code's retention criterion
(`lap_time` present, possibly non-positive): every emitted point of a
driver carries the fixed baseline `baselineOf` — the median of the lap
times of the first `min 5 n` retained laps in ascending lap-number
order — a positive lap time, and the degradation percentage
`(lap_time − baseline)/baseline × 100`; a driver with fewer than 3
retained laps, or whose baseline is non-positive, contributes no
points. -/
theorem C1_baseline_and_exclusions (t : LapTable) (dn : Option Int) (n : Int) :
    (∀ p ∈ calculate_tire_degradation t dn, p.number = n →
      baselineOf (degradationData t dn) n = some p.baseline ∧
      0 < p.baseline ∧ 0 < p.lap_time ∧
      p.degradation_pct = (p.lap_time - p.baseline) / p.baseline * 100) ∧
    ((validLapsOf (degradationData t dn) n).length < 3 →
      ∀ p ∈ calculate_tire_degradation t dn, p.number ≠ n) ∧
    (∀ b, baselineOf (degradationData t dn) n = some b → b ≤ 0 →
      ∀ p ∈ calculate_tire_degradation t dn, p.number ≠ n) := by
  refine ⟨?_, ?_, ?_⟩
  · intro p hp hpn
    have h := mem_calculate_tire_degradation hp
    rw [hpn] at h
    obtain ⟨-, -, b, hb, hb0, hpb, hpt, -, hpct⟩ := mem_driverPoints h
    refine ⟨by rw [hb, hpb], by rw [hpb]; exact hb0, hpt, by rw [hpct, hpb]⟩
  · intro hlen p hp hpn
    have h := mem_calculate_tire_degradation hp
    rw [hpn] at h
    have h3 := (mem_driverPoints h).2.1
    omega
  · intro b hb hb0 p hp hpn
    have h := mem_calculate_tire_degradation hp
    rw [hpn] at h
    obtain ⟨-, -, b', hb', hb'0, -⟩ := mem_driverPoints h
    rw [hb] at hb'
    obtain rfl := Option.some.inj hb'
    linarith

/-- Concrete table exercising the amended C1. -/
def tableC1w : LapTable :=
  ⟨[⟨1, 1, some 100⟩, ⟨1, 2, some 100⟩, ⟨1, 3, some 100⟩,
    ⟨1, 4, some 103⟩], true, true, true⟩

/-- Witness for the amended C1: on `tableC1w` the emitted lap-4 point
has baseline 100 (the median of the first four retained lap times) and
degradation percentage 3. -/
theorem C1_baseline_and_exclusions_witness :
    (⟨1, 4, 103, 100, 3, 3⟩ : DegPoint) ∈
      calculate_tire_degradation tableC1w none ∧
    (baselineOf (degradationData tableC1w none) 1 = some 100 ∧
      (0 : ℚ) < 100 ∧ (0 : ℚ) < 103 ∧
      (3 : ℚ) = (103 - 100) / 100 * 100) := by
  have hmem : (⟨1, 4, 103, 100, 3, 3⟩ : DegPoint) ∈
      calculate_tire_degradation tableC1w none := by
    rw [show calculate_tire_degradation tableC1w none =
        [⟨1, 1, 100, 100, 0, 0⟩, ⟨1, 2, 100, 100, 0, 0⟩,
         ⟨1, 3, 100, 100, 0, 0⟩, ⟨1, 4, 103, 100, 3, 3⟩] from by
      norm_num [tableC1w, calculate_tire_degradation, degradationData,
        driverPoints, validLapsOf, baselineOf, pandasMedian, medianSorted,
        sortLe, insertLe, uniqInts, uniqIntsGo, lapNumLe]
      rw [if_neg (List.cons_ne_nil _ _)]
      norm_num [List.filterMap]]
    simp
  exact ⟨hmem, (C1_baseline_and_exclusions tableC1w none 1).1 _ hmem rfl⟩

/-! ## Claim C5 -/

theorem getLast?_cons_of_ne_nil {α : Type} (a : α) :
    ∀ {l : List α}, l ≠ [] → (a :: l).getLast? = l.getLast?
  | [], h => absurd rfl h
  | _ :: _, _ => rfl

/-- Counterexample to C5 as stated: the lap-1 record has
`lap_time = 0` (≤ 0, hence invalid per the spec), yet `get_driver_stats`
reports `best_lap = 0` — the non-positive value was included in the
`min` aggregation; excluding it would give 100. -/
theorem C5_counterexample :
    get_driver_stats
        ⟨[⟨1, 1, some 0⟩, ⟨1, 2, some 100⟩, ⟨1, 3, some 101⟩],
          true, true, true⟩ ⟨5, none, 1⟩ 1 =
      some ⟨1, 3, some 0, some 67, some 101⟩ ∧
    pandasMin ([⟨1, 1, some 0⟩, ⟨1, 2, some 100⟩,
        (⟨1, 3, some 101⟩ : LapRow)].map (fun r => specValid r.lap_time)) =
      some 100 ∧
    some (0 : ℚ) ≠ some (100 : ℚ) := by
  refine ⟨?_, ?_, by norm_num⟩
  · norm_num [get_driver_stats, pandasMin, pandasMean, List.filterMap,
      List.filter]
    intro h
    exact absurd h (List.cons_ne_nil _ _)
  · norm_num [pandasMin, specValid, List.filterMap]

/-- C5 (amended): a record whose `lap_time` is absent (`NaN`) is
excluded from every numeric aggregation — the pandas median, min and
mean all ignore `none` cells, and the degradation estimator's retained
laps all have a present `lap_time` — while the record itself is
retained: prepending such a record to the table leaves
`get_driver_stats`'s aggregates unchanged and increments only
`laps_completed`.  (Present values ≤ 0, by contrast, DO enter these
aggregations — see the counterexample.) -/
theorem C5_nan_excluded_record_retained (l : List (Option ℚ)) (t : LapTable)
    (s : SimState) (d : Int) (r : LapRow) (st0 : DriverStats)
    (h1 : r.lap_time = none) (h2 : r.number = d)
    (h3 : r.lap_number ≤ s.current_lap)
    (h4 : get_driver_stats t s d = some st0) :
    pandasMedian (none :: l) = pandasMedian l ∧
    pandasMin (none :: l) = pandasMin l ∧
    pandasMean (none :: l) = pandasMean l ∧
    (∀ row ∈ validLapsOf t.rows d, row.lap_time.isSome = true) ∧
    get_driver_stats ⟨r :: t.rows, t.hasNumberCol, t.hasLapNumberCol,
        t.hasLapTimeCol⟩ s d =
      some ⟨st0.driver_number, st0.laps_completed + 1, st0.best_lap,
        st0.avg_lap, st0.last_lap⟩ := by
  refine ⟨by simp [pandasMedian], by simp [pandasMin], by simp [pandasMean],
    ?_, ?_⟩
  · intro row hrow
    exact (List.mem_filter.mp hrow).2
  · have hfil : List.filter
        (fun x => decide (x.number = d) && decide (x.lap_number ≤ s.current_lap))
        (r :: t.rows) =
        r :: t.rows.filter
          (fun x => decide (x.number = d) && decide (x.lap_number ≤ s.current_lap)) :=
      List.filter_cons_of_pos (by simp [h2, h3])
    simp only [get_driver_stats] at h4 ⊢
    rw [hfil]
    by_cases hddn : t.rows.filter
        (fun x => decide (x.number = d) && decide (x.lap_number ≤ s.current_lap)) = []
    · rw [if_pos hddn] at h4
      exact absurd h4 (by simp)
    · rw [if_neg hddn] at h4
      rw [if_neg (List.cons_ne_nil _ _)]
      rw [Option.some_inj] at h4
      subst h4
      refine congrArg some ?_
      refine DriverStats.mk.injEq .. |>.mpr ⟨rfl, by simp, ?_, ?_, ?_⟩
      · by_cases hc : t.hasLapTimeCol = true
        · simp [hc, pandasMin, h1]
        · simp [Bool.of_not_eq_true hc]
      · by_cases hc : t.hasLapTimeCol = true
        · simp [hc, pandasMean, h1]
        · simp [Bool.of_not_eq_true hc]
      · by_cases hc : t.hasLapTimeCol = true
        · simp [hc, getLast?_cons_of_ne_nil _ hddn]
        · simp [Bool.of_not_eq_true hc]

/-- Witness for the amended C5: prepending a `NaN`-time record for
driver 1 to a concrete two-lap table leaves best/avg/last lap unchanged
and bumps `laps_completed` from 2 to 3. -/
theorem C5_nan_excluded_record_retained_witness :
    pandasMedian (none :: [some (90 : ℚ)]) = pandasMedian [some (90 : ℚ)] ∧
    pandasMin (none :: [some (90 : ℚ)]) = pandasMin [some (90 : ℚ)] ∧
    pandasMean (none :: [some (90 : ℚ)]) = pandasMean [some (90 : ℚ)] ∧
    (∀ row ∈ validLapsOf [⟨1, 1, some 91⟩, ⟨1, 2, some 90⟩] 1,
      row.lap_time.isSome = true) ∧
    get_driver_stats ⟨⟨1, 3, none⟩ :: [⟨1, 1, some 91⟩, ⟨1, 2, some 90⟩],
        true, true, true⟩ ⟨5, none, 1⟩ 1 =
      some ⟨1, 2 + 1, some 90, some (181 / 2), some 90⟩ :=
  C5_nan_excluded_record_retained [some 90]
    ⟨[⟨1, 1, some 91⟩, ⟨1, 2, some 90⟩], true, true, true⟩
    ⟨5, none, 1⟩ 1 ⟨1, 3, none⟩ ⟨1, 2, some 90, some (181 / 2), some 90⟩
    rfl rfl (by norm_num)
    (by
      norm_num [get_driver_stats, pandasMin, pandasMean, List.filter,
        List.filterMap]
      intro h
      exact absurd h (List.cons_ne_nil _ _))

/-! ## Claim C2 -/

/-- Counterexample to C2 as stated: the table holds lap times
`[0, 100, 102]`, so the spec's `median_valid_lap_time` (positive
present values only) is 101 and the claimed lap at elapsed 100 is
`min (⌊100/101⌋ + 1) 3 = 1`; the code's pandas median keeps the 0 and
gives 100, so the projector reports lap 2. -/
theorem C2_counterexample :
    specValidMedian ⟨[⟨1, 1, some 0⟩, ⟨2, 2, some 100⟩, ⟨3, 3, some 102⟩],
        true, true, true⟩ = some 101 ∧
    (get_current_race_state
        ⟨[⟨1, 1, some 0⟩, ⟨2, 2, some 100⟩, ⟨3, 3, some 102⟩],
          true, true, true⟩ ⟨1, some 0, 1⟩ 100).2 = some ⟨2, 100⟩ ∧
    min (⌊(100 : ℚ) / 101⌋ + 1)
      (lapCap ⟨[⟨1, 1, some 0⟩, ⟨2, 2, some 100⟩, ⟨3, 3, some 102⟩],
        true, true, true⟩) = 1 ∧
    (2 : Int) ≠ 1 := by
  refine ⟨?_, ?_, ?_, by norm_num⟩
  · norm_num [specValidMedian, specValid, pandasMedian, medianSorted,
      sortLe, insertLe, List.filterMap]
  · norm_num [get_current_race_state, pandasMedian, medianSorted, sortLe,
      insertLe, List.filterMap, lapCap, pyInt, List.max?, List.foldl]
    exact List.cons_ne_nil _ _
  · have hf : ⌊(100 : ℚ) / 101⌋ = 0 := by
      rw [Int.floor_eq_zero_iff]
      constructor <;> norm_num
    rw [hf]
    norm_num [lapCap, List.max?, List.foldl]

/-- C2 (amended): with the pacing median taken as the code takes it —
the pandas median over the present (`notna`) lap times, non-positive
values included — a query after start projects
`current_lap = min(⌊elapsed_race / median⌋ + 1, lapCap)` with
`elapsed_race = (now − start) × speed_multiplier`, where `lapCap` is
the maximum lap number present (50 if the column is absent); and
`start_simulation` captures the reference instant, the multiplier, and
resets the lap to 1. -/
theorem C2_replay_projection (t : LapTable) (s : SimState)
    (st now sp m : ℚ)
    (h1 : s.sim_start = some st)
    (h2 : t.rows ≠ [])
    (h3 : t.hasLapTimeCol = true)
    (h4 : pandasMedian (t.rows.map (fun r => r.lap_time)) = some m)
    (h5 : 0 < m)
    (h6 : 0 ≤ (now - st) * s.speed_multiplier) :
    (get_current_race_state t s now).2 =
      some ⟨min (⌊(now - st) * s.speed_multiplier / m⌋ + 1) (lapCap t),
        (now - st) * s.speed_multiplier⟩ ∧
    (start_simulation sp now).current_lap = 1 ∧
    (start_simulation sp now).sim_start = some now ∧
    (start_simulation sp now).speed_multiplier = sp := by
  refine ⟨?_, rfl, rfl, rfl⟩
  simp only [get_current_race_state, h1]
  rw [if_pos (⟨h2, h3⟩ : t.rows ≠ [] ∧ t.hasLapTimeCol = true)]
  simp only [h4]
  rw [if_pos h5]
  simp only [pyInt]
  rw [if_pos (div_nonneg h6 (le_of_lt h5))]

/-- Witness for the amended C2: median lap time 90, speed 60, queried
95 wall-clock seconds after a start at instant 0 — elapsed race time
5700 s, projected lap `min(⌊5700/90⌋ + 1, 64) = 64`. -/
theorem C2_replay_projection_witness :
    (⟨1, some 0, 60⟩ : SimState).sim_start = some 0 ∧
    (get_current_race_state
        ⟨[⟨1, 63, some 90⟩, ⟨1, 64, some 90⟩, ⟨1, 65, none⟩],
          true, true, true⟩ ⟨1, some 0, 60⟩ 95).2 =
      some ⟨min (⌊(95 - 0) * 60 / (90 : ℚ)⌋ + 1)
        (lapCap ⟨[⟨1, 63, some 90⟩, ⟨1, 64, some 90⟩, ⟨1, 65, none⟩],
          true, true, true⟩), (95 - 0) * 60⟩ ∧
    (start_simulation 60 95).current_lap = 1 :=
  ⟨rfl,
    (C2_replay_projection
      ⟨[⟨1, 63, some 90⟩, ⟨1, 64, some 90⟩, ⟨1, 65, none⟩], true, true, true⟩
      ⟨1, some 0, 60⟩ 0 95 60 90 rfl (List.cons_ne_nil _ _)
      rfl
      (by norm_num [pandasMedian, medianSorted, sortLe, insertLe,
        List.filterMap])
      (by norm_num) (by norm_num)).1,
    (C2_replay_projection
      ⟨[⟨1, 63, some 90⟩, ⟨1, 64, some 90⟩, ⟨1, 65, none⟩], true, true, true⟩
      ⟨1, some 0, 60⟩ 0 95 60 90 rfl (List.cons_ne_nil _ _)
      rfl
      (by norm_num [pandasMedian, medianSorted, sortLe, insertLe,
        List.filterMap])
      (by norm_num) (by norm_num)).2.1⟩

/-! ## Claim C3 -/

instance : Std.Antisymm (fun x1 x2 : Int => x1 ≤ x2) :=
  ⟨@fun _ _ h1 h2 => le_antisymm h1 h2⟩

/-- `List.min?` over integers returns a member below every member. -/
theorem intMin?_spec {l : List Int} {a : Int} (h : l.min? = some a) :
    a ∈ l ∧ ∀ b ∈ l, a ≤ b := by
  rw [List.min?_eq_some_iff] at h
  · exact h
  · exact fun x => le_refl x
  · exact fun x y => min_choice x y
  · exact fun x y z => le_min_iff

/-- C3: when some degradation point of the driver exceeds the 2.0%
threshold, the Pit Advisor recommends `max(current_lap, critical_lap −
2)` where `critical_lap` is the smallest lap number above threshold,
urgency is `high` exactly when `critical_lap − current_lap ≤ 3` (else
`medium`), `laps_remaining = critical_lap − current_lap` unclamped, and
`current_degradation` is the percentage of the last point of the
driver's series. -/
theorem C3_critical_pit_window (t : LapTable) (d cl tl : Int)
    (hcrit : ((calculate_tire_degradation t (some d)).filter
        (fun p => decide (p.number = d))).filter
        (fun p => decide (p.degradation_pct > 2)) ≠ []) :
    ∃ criticalLap,
      ((((calculate_tire_degradation t (some d)).filter
          (fun p => decide (p.number = d))).filter
          (fun p => decide (p.degradation_pct > 2))).map
          (fun p => p.lap_number)).min? = some criticalLap ∧
      criticalLap ∈ (((calculate_tire_degradation t (some d)).filter
          (fun p => decide (p.number = d))).filter
          (fun p => decide (p.degradation_pct > 2))).map
          (fun p => p.lap_number) ∧
      (∀ x ∈ (((calculate_tire_degradation t (some d)).filter
          (fun p => decide (p.number = d))).filter
          (fun p => decide (p.degradation_pct > 2))).map
          (fun p => p.lap_number), criticalLap ≤ x) ∧
      recommend_pit_window t d cl tl =
        ⟨max cl (criticalLap - 2), "Tire degradation at 2.0% threshold",
         if criticalLap - cl ≤ 3 then "high" else "medium",
         some criticalLap,
         (((calculate_tire_degradation t (some d)).filter
            (fun p => decide (p.number = d))).getLast?).map
            (fun p => p.degradation_pct),
         some (criticalLap - cl)⟩ := by
  have hdd : (calculate_tire_degradation t (some d)).filter
      (fun p => decide (p.number = d)) ≠ [] := by
    intro h
    rw [h] at hcrit
    exact hcrit rfl
  have hdeg : calculate_tire_degradation t (some d) ≠ [] := by
    intro h
    apply hdd
    rw [h]
    rfl
  rcases hmin : ((((calculate_tire_degradation t (some d)).filter
      (fun p => decide (p.number = d))).filter
      (fun p => decide (p.degradation_pct > 2))).map
      (fun p => p.lap_number)).min? with _ | c
  · rw [List.min?_eq_none_iff, List.map_eq_nil_iff] at hmin
    exact absurd hmin hcrit
  · obtain ⟨hmem, hle⟩ := intMin?_spec hmin
    refine ⟨c, hmin, hmem, hle, ?_⟩
    simp only [recommend_pit_window]
    rw [if_neg hdeg, if_neg hdd]
    simp only [hmin]

/-- Concrete table for the C3 witness: driver 1 is at baseline 100 and
crosses the 2% threshold at lap 10 (time 103 ⇒ 3%). -/
def tableC3 : LapTable :=
  ⟨[⟨1, 1, some 100⟩, ⟨1, 2, some 100⟩, ⟨1, 3, some 100⟩,
    ⟨1, 10, some 103⟩], true, true, true⟩

/-- Witness for C3: on `tableC3` with `current_lap = 8` the advisor
recommends lap `max(8, 10 − 2) = 8`, urgency `high` (10 − 8 ≤ 3),
`laps_remaining = 2` and current degradation 3%. -/
theorem C3_critical_pit_window_witness :
    recommend_pit_window tableC3 1 8 30 =
      ⟨8, "Tire degradation at 2.0% threshold", "high",
        some 10, some 3, some 2⟩ := by
  have heval : calculate_tire_degradation tableC3 (some 1) =
      [⟨1, 1, 100, 100, 0, 0⟩, ⟨1, 2, 100, 100, 0, 0⟩,
       ⟨1, 3, 100, 100, 0, 0⟩, ⟨1, 10, 103, 100, 3, 3⟩] := by
    norm_num [tableC3, calculate_tire_degradation, degradationData,
      driverPoints, validLapsOf, baselineOf, pandasMedian, medianSorted,
      sortLe, insertLe, uniqInts, uniqIntsGo, lapNumLe]
    rw [if_neg (List.cons_ne_nil _ _)]
    norm_num [List.filterMap]
  have hcrit : ((calculate_tire_degradation tableC3 (some 1)).filter
      (fun p => decide (p.number = 1))).filter
      (fun p => decide (p.degradation_pct > 2)) ≠ [] := by
    rw [heval]
    decide
  obtain ⟨c, hmin, -, -, heq⟩ := C3_critical_pit_window tableC3 1 8 30 hcrit
  rw [heval] at hmin heq
  have h10 : (((([⟨1, 1, 100, 100, 0, 0⟩, ⟨1, 2, 100, 100, 0, 0⟩,
      ⟨1, 3, 100, 100, 0, 0⟩, ⟨1, 10, 103, 100, 3, 3⟩] :
      List DegPoint).filter (fun p => decide (p.number = 1))).filter
      (fun p => decide (p.degradation_pct > 2))).map
      (fun p => p.lap_number)).min? = some 10 := by decide
  rw [h10, Option.some_inj] at hmin
  rw [heq, ← hmin]
  decide

/-! ## Claim C7 -/

/-- C7: with no degradation data for the driver the advisor returns
`current_lap + 10`, urgency `low`, with an insufficient-data reason
(either wording the source uses); with data but no point above the
2.0% threshold it returns `min(current_lap + 20, total_laps // 2)`,
urgency `low`, reason `"Optimal tire life window"`, and
`laps_remaining = recommended_lap − current_lap`. -/
theorem C7_default_pit_windows (t : LapTable) (d cl tl : Int) :
    ((calculate_tire_degradation t (some d)).filter
        (fun p => decide (p.number = d)) = [] →
      ∃ reason, recommend_pit_window t d cl tl =
          ⟨cl + 10, reason, "low", none, none, none⟩ ∧
        (reason = "Insufficient data" ∨ reason = "No degradation data")) ∧
    ((calculate_tire_degradation t (some d)).filter
        (fun p => decide (p.number = d)) ≠ [] →
      ((calculate_tire_degradation t (some d)).filter
        (fun p => decide (p.number = d))).filter
        (fun p => decide (p.degradation_pct > 2)) = [] →
      recommend_pit_window t d cl tl =
        ⟨min (cl + 20) (pyFloorDiv tl 2), "Optimal tire life window", "low",
         none, none, some (min (cl + 20) (pyFloorDiv tl 2) - cl)⟩) := by
  constructor
  · intro hdd
    by_cases hdeg : calculate_tire_degradation t (some d) = []
    · refine ⟨"Insufficient data", ?_, Or.inl rfl⟩
      simp only [recommend_pit_window]
      rw [if_pos hdeg]
    · refine ⟨"No degradation data", ?_, Or.inr rfl⟩
      simp only [recommend_pit_window]
      rw [if_neg hdeg, if_pos hdd]
  · intro hdd hcrit
    have hdeg : calculate_tire_degradation t (some d) ≠ [] := by
      intro h
      apply hdd
      rw [h]
      rfl
    simp only [recommend_pit_window]
    rw [if_neg hdeg, if_neg hdd]
    simp only [hcrit, List.map_nil, List.min?_nil]

/-- Concrete table for the C7 witness: driver 1 has three laps with at
most 1% degradation; driver 2 has no laps at all. -/
def tableC7 : LapTable :=
  ⟨[⟨1, 1, some 100⟩, ⟨1, 2, some 100⟩, ⟨1, 3, some 101⟩],
    true, true, true⟩

/-- Witness for C7: querying absent driver 2 at lap 8 yields
`⟨18, "Insufficient data", low⟩`; querying driver 1 (no point above 2%)
at lap 4 of 30 yields `⟨min(24, 15) = 15, "Optimal tire life window",
low, laps_remaining 11⟩`. -/
theorem C7_default_pit_windows_witness :
    (∃ reason, recommend_pit_window tableC7 2 8 30 =
        ⟨8 + 10, reason, "low", none, none, none⟩ ∧
      (reason = "Insufficient data" ∨ reason = "No degradation data")) ∧
    recommend_pit_window tableC7 1 4 30 =
      ⟨15, "Optimal tire life window", "low", none, none, some 11⟩ := by
  have heval2 : calculate_tire_degradation tableC7 (some 2) = [] := by
    norm_num [tableC7, calculate_tire_degradation, degradationData,
      driverPoints, validLapsOf, baselineOf, pandasMedian, medianSorted,
      sortLe, insertLe, uniqInts, uniqIntsGo, lapNumLe]
  have heval1 : calculate_tire_degradation tableC7 (some 1) =
      [⟨1, 1, 100, 100, 0, 0⟩, ⟨1, 2, 100, 100, 0, 0⟩,
       ⟨1, 3, 101, 100, 1, 1⟩] := by
    norm_num [tableC7, calculate_tire_degradation, degradationData,
      driverPoints, validLapsOf, baselineOf, pandasMedian, medianSorted,
      sortLe, insertLe, uniqInts, uniqIntsGo, lapNumLe]
    rw [if_neg (List.cons_ne_nil _ _)]
    norm_num [List.filterMap]
  refine ⟨(C7_default_pit_windows tableC7 2 8 30).1 (by rw [heval2]; rfl), ?_⟩
  have h2 := (C7_default_pit_windows tableC7 1 4 30).2
    (by rw [heval1]; decide) (by rw [heval1]; decide)
  rw [h2]
  decide

/-! ## Claim C4 -/

/-- C4: in an undercut query where the driver is found at 1-based rank
`dpos` (ranked ascending by current-lap time), the result is infeasible
with reason `"Already at or ahead of target"` whenever
`dpos ≤ target_position` regardless of any gap; otherwise, with a row
at the target rank, `potential_gain = 0.5 × 2 = 1.0`,
`feasible ⇔ potential_gain > gap + 30.0` and
`net_advantage = potential_gain − gap − 30.0`, with
`gap = driver lap time − target lap time`. -/
theorem C4_undercut_assessment (t : LapTable) (d tp cl : Int)
    (drow : LapRow) (dpos : Int)
    (h1 : t.hasNumberCol = true) (h2 : t.hasLapNumberCol = true)
    (hne : t.rows ≠ [])
    (hcur : currentLapRows t cl ≠ [])
    (hd : ((rankedCurrent t cl).filter
        (fun p => decide (p.1.number = d))).head? = some (drow, some dpos)) :
    (dpos ≤ tp →
      calculate_undercut_overtake t d tp cl =
        .ok (infeasibleRes "Already at or ahead of target")) ∧
    (∀ (trow : LapRow) (tposOpt : Option Int) (td tt : ℚ),
      tp < dpos →
      ((rankedCurrent t cl).filter
        (fun p => decide (p.2 = some tp))).head? = some (trow, tposOpt) →
      drow.lap_time = some td → trow.lap_time = some tt →
      ∃ res, calculate_undercut_overtake t d tp cl = .ok res ∧
        res.potential_gain = some 1 ∧
        res.gap_to_target = some (td - tt) ∧
        (res.feasible = true ↔ (1 : ℚ) > (td - tt) + 30) ∧
        res.net_advantage = some (1 - (td - tt) - 30) ∧
        res.current_position = some dpos) := by
  have hrr : rankRows t.hasLapTimeCol (currentLapRows t cl) =
      rankedCurrent t cl := rfl
  constructor
  · intro hle
    simp only [calculate_undercut_overtake]
    rw [if_neg hne, if_neg (by simp [h2]), if_neg hcur, hrr,
      if_neg (by simp [h1])]
    simp only [hd]
    rw [if_pos hle]
  · intro trow tposOpt td tt hgt htgt htd htt
    simp only [calculate_undercut_overtake]
    rw [if_neg hne, if_neg (by simp [h2]), if_neg hcur, hrr,
      if_neg (by simp [h1])]
    simp only [hd]
    rw [if_neg (not_le.mpr hgt)]
    simp only [htgt, htd, htt]
    refine ⟨_, rfl, rfl, rfl, ?_, rfl, rfl⟩
    exact decide_eq_true_iff

/-- Concrete current-lap standings for the C4 witness: at lap 4 driver
7 leads (90 s), driver 8 is second (91 s), driver 5 is third (92 s). -/
def tableC4 : LapTable :=
  ⟨[⟨7, 4, some 90⟩, ⟨8, 4, some 91⟩, ⟨5, 4, some 92⟩],
    true, true, true⟩

/-- Witness for C4: driver 7 (rank 1) targeting rank 2 is already at or
ahead; driver 5 (rank 3) targeting rank 1 gets `potential_gain = 1`,
`gap = 92 − 90 = 2`, infeasible since `1 > 2 + 30` fails, and
`net_advantage = 1 − 2 − 30 = −31`. -/
theorem C4_undercut_assessment_witness :
    calculate_undercut_overtake tableC4 7 2 4 =
      .ok (infeasibleRes "Already at or ahead of target") ∧
    (∃ res, calculate_undercut_overtake tableC4 5 1 4 = .ok res ∧
      res.potential_gain = some 1 ∧
      res.gap_to_target = some ((92 : ℚ) - 90) ∧
      (res.feasible = true ↔ (1 : ℚ) > ((92 : ℚ) - 90) + 30) ∧
      res.net_advantage = some (1 - ((92 : ℚ) - 90) - 30) ∧
      res.current_position = some 3) :=
  ⟨(C4_undercut_assessment tableC4 7 2 4 ⟨7, 4, some 90⟩ 1 rfl rfl
      (List.cons_ne_nil _ _) (by decide) (by decide)).1 (by decide),
    (C4_undercut_assessment tableC4 5 1 4 ⟨5, 4, some 92⟩ 3 rfl rfl
      (List.cons_ne_nil _ _) (by decide) (by decide)).2
      ⟨7, 4, some 90⟩ (some 1) ((92 : ℚ)) 90 (by decide) (by decide)
      rfl rfl⟩

/-! ## Claim C6 -/

/-- Counterexample to C6 as stated: a non-empty lap table without the
`LAP_TIME_SEC` column never gets a `position` column, so once the
driver's row is found the source's `driver_pos['position']` raises
`KeyError` — a data-quality condition that does crash rather than
yield a sentinel. -/
theorem C6_counterexample :
    calculate_undercut_overtake ⟨[⟨1, 1, none⟩], true, true, false⟩ 1 1 1 =
      .error "KeyError: position" := rfl

/-- Every entry of the ranked current-lap list carries a 1-based
position when the lap-time column exists. -/
theorem rankRows_pos_isSome {l : List LapRow} {p : LapRow × Option Int}
    (h : p ∈ rankRows true l) : ∃ k, p.2 = some k := by
  simp only [rankRows, if_pos] at h
  rw [List.mem_map] at h
  obtain ⟨a, -, rfl⟩ := h
  exact ⟨(a.1 : Int) + 1, rfl⟩

/-- C6 (amended): `query_state` before `start` returns the empty
result, and the undercut calculator returns a (possibly sentinel)
dictionary — never a `KeyError` — whenever the canonical `NUMBER`,
`LAP_NUMBER` and `LAP_TIME_SEC` columns are all present; with a column
missing it can raise (see the counterexample). -/
theorem C6_sentinels_with_canonical_columns :
    (∀ (t : LapTable) (s : SimState) (now : ℚ), s.sim_start = none →
      (get_current_race_state t s now).2 = none) ∧
    (∀ (t : LapTable) (d tp cl : Int),
      t.hasNumberCol = true → t.hasLapNumberCol = true →
      t.hasLapTimeCol = true →
      ∃ res, calculate_undercut_overtake t d tp cl = .ok res) := by
  constructor
  · intro t s now hs
    simp [get_current_race_state, hs]
  · intro t d tp cl h1 h2 h3
    simp only [calculate_undercut_overtake]
    by_cases hne : t.rows = []
    · rw [if_pos hne]
      exact ⟨_, rfl⟩
    · rw [if_neg hne, if_neg (by simp [h2])]
      by_cases hcur : currentLapRows t cl = []
      · rw [if_pos hcur]
        exact ⟨_, rfl⟩
      · rw [if_neg hcur, if_neg (by simp [h1])]
        rcases hh : ((rankRows t.hasLapTimeCol (currentLapRows t cl)).filter
            (fun p => decide (p.1.number = d))).head? with _ | ⟨row, posOpt⟩
        · refine ⟨infeasibleRes "Driver not found", ?_⟩
          simp only [hh]
        · have hmem : (row, posOpt) ∈ (rankRows t.hasLapTimeCol
              (currentLapRows t cl)).filter (fun p => decide (p.1.number = d)) := by
            obtain ⟨ys, hys⟩ := List.head?_eq_some_iff.mp hh
            rw [hys]
            exact List.mem_cons_self _ _
          have hmem2 := (List.mem_filter.mp hmem).1
          rw [h3] at hmem2
          obtain ⟨k, hk⟩ := rankRows_pos_isSome hmem2
          simp only at hk
          subst hk
          simp only [hh]
          by_cases hle : k ≤ tp
          · rw [if_pos hle]
            exact ⟨_, rfl⟩
          · rw [if_neg hle]
            rcases ht : ((rankRows t.hasLapTimeCol (currentLapRows t cl)).filter
                (fun p => decide (p.2 = some tp))).head? with _ | q
            · simp only [ht]
              exact ⟨_, rfl⟩
            · simp only [ht]
              exact ⟨_, rfl⟩

/-- Concrete table for the C6 witness (all canonical columns present). -/
def tableC6 : LapTable :=
  ⟨[⟨7, 4, some 90⟩, ⟨8, 4, some 91⟩], true, true, true⟩

/-- Witness for the amended C6: a never-started simulator returns the
empty dictionary, and an undercut query on a fully-columned table
returns an `ok` result. -/
theorem C6_sentinels_with_canonical_columns_witness :
    (get_current_race_state tableC6 ⟨1, none, 1⟩ 0).2 = none ∧
    ∃ res, calculate_undercut_overtake tableC6 8 1 4 = .ok res :=
  ⟨C6_sentinels_with_canonical_columns.1 tableC6 ⟨1, none, 1⟩ 0 rfl,
    C6_sentinels_with_canonical_columns.2 tableC6 8 1 4 rfl rfl rfl⟩

/-! ## Claim C8 -/

/-- C8: on a non-empty weather table with both current averages
defined, the forecast impact is
`(forecast_temp − avg_temp) × 0.1 + ((forecast_humidity − avg_humidity)/10) × 0.05`
seconds per lap; if either average is undefined the result is the
empty dictionary. -/
theorem C8_forecast_impact (w : WeatherTable) (ft fh : ℚ)
    (hne : w.rows ≠ []) :
    (∀ a h, currentAvgTemp w = some a → currentAvgHumidity w = some h →
      get_weather_forecast_impact w ft fh =
        some ⟨ft, fh, a, h, ft - a, fh - h,
          (ft - a) * (1 / 10) + (fh - h) / 10 * (1 / 20)⟩) ∧
    (currentAvgTemp w = none ∨ currentAvgHumidity w = none →
      get_weather_forecast_impact w ft fh = none) := by
  constructor
  · intro a h ha hh
    simp only [get_weather_forecast_impact]
    rw [if_neg hne]
    simp only [ha, hh]
  · intro hor
    simp only [get_weather_forecast_impact]
    rw [if_neg hne]
    rcases hor with h | h
    · rcases hh : currentAvgHumidity w with _ | b <;> simp only [h, hh]
    · rcases ht : currentAvgTemp w with _ | a <;> simp only [h, ht]

/-- Concrete weather table for the C8 witness: one sample, 20 °C and
40 % humidity. -/
def weatherC8 : WeatherTable :=
  ⟨[⟨some 20, some 40, none, false⟩], true, true, true, true⟩

/-- Witness for C8, the spec's own example: forecast 25 °C / 50 %
against averages 20 °C / 40 % gives `5×0.1 + (10/10)×0.05 = 0.55` s per
lap. -/
theorem C8_forecast_impact_witness :
    get_weather_forecast_impact weatherC8 25 50 =
      some ⟨25, 50, 20, 40, 25 - 20, 50 - 40,
        (25 - 20) * (1 / 10) + (50 - 40) / 10 * (1 / 20)⟩ ∧
    ((25 : ℚ) - 20) * (1 / 10) + ((50 : ℚ) - 40) / 10 * (1 / 20) = 11 / 20 :=
  ⟨(C8_forecast_impact weatherC8 25 50 (List.cons_ne_nil _ _)).1 20 40
    (by norm_num [currentAvgTemp, weatherC8, pandasMean, List.filterMap])
    (by norm_num [currentAvgHumidity, weatherC8, pandasMean, List.filterMap]),
   by norm_num⟩

/-! ## Claim C9 -/

/-- C9: on non-empty weather and lap tables with the canonical lap
columns present, `analyze_weather_impact` returns a summary whose
trend/range fields are present exactly when at least 2 distinct lap
numbers exist; when present, the trend is `"increasing"` exactly when
the maximum temperature strictly exceeds the minimum and
`"decreasing"` otherwise — including when an extreme is undefined
(`NaN > NaN` is false in Python). -/
theorem C9_weather_trend_presence (w : WeatherTable) (t : LapTable)
    (h1 : w.rows ≠ []) (h2 : t.rows ≠ [])
    (h3 : t.hasLapTimeCol = true) (h4 : t.hasLapNumberCol = true) :
    ∃ s, analyze_weather_impact w t = some s ∧
      ((s.temperature_trend ≠ none ∧ s.temperature_range ≠ none) ↔
        2 ≤ (uniqInts (t.rows.map (fun r => r.lap_number))).length) ∧
      (∀ mx mn, s.max_temp = some mx → s.min_temp = some mn →
        s.temperature_trend ≠ none →
        s.temperature_trend =
          some (if mx > mn then "increasing" else "decreasing")) ∧
      ((s.max_temp = none ∨ s.min_temp = none) →
        s.temperature_trend ≠ none →
        s.temperature_trend = some "decreasing") := by
  simp only [analyze_weather_impact]
  rw [if_neg (not_or.mpr ⟨h1, h2⟩)]
  by_cases hlen : 1 < (uniqInts (t.rows.map (fun r => r.lap_number))).length
  · rw [if_pos ⟨by rw [h3], by rw [h4], hlen⟩]
    refine ⟨_, rfl, ?_, ?_, ?_⟩
    · constructor
      · intro _
        omega
      · intro _
        exact ⟨by simp, by simp⟩
    · intro mx mn hmx hmn _
      simp only at hmx hmn
      simp only [hmx, hmn]
    · intro hor _
      rcases hor with h | h <;> simp only at h
      · rcases hmn : (if w.hasAirTempCol = true then
            pandasMin (w.rows.map (fun r => r.air_temp)) else none) with _ | mn <;>
          simp only [h, hmn]
      · rcases hmx : (if w.hasAirTempCol = true then
            pandasMax (w.rows.map (fun r => r.air_temp)) else none) with _ | mx <;>
          simp only [h, hmx]
  · rw [if_neg (fun hc => hlen hc.2.2)]
    refine ⟨_, rfl, ?_, ?_, ?_⟩
    · constructor
      · intro hc
        exact absurd rfl hc.1
      · intro hc
        omega
    · intro mx mn _ _ hne
      exact absurd rfl hne
    · intro _ hne
      exact absurd rfl hne

/-- Concrete weather table for the C9 witness: temperatures 20 and
25 °C. -/
def weatherC9 : WeatherTable :=
  ⟨[⟨some 20, some 40, none, false⟩, ⟨some 25, some 50, none, false⟩],
    true, true, true, true⟩

/-- Concrete lap table for the C9 witness: two distinct lap numbers. -/
def lapC9 : LapTable :=
  ⟨[⟨1, 1, some 90⟩, ⟨1, 2, some 91⟩], true, true, true⟩

/-- Witness for C9 at a concrete pair of tables with two distinct lap
numbers. -/
theorem C9_weather_trend_presence_witness :
    ∃ s, analyze_weather_impact weatherC9 lapC9 = some s ∧
      ((s.temperature_trend ≠ none ∧ s.temperature_range ≠ none) ↔
        2 ≤ (uniqInts (lapC9.rows.map (fun r => r.lap_number))).length) ∧
      (∀ mx mn, s.max_temp = some mx → s.min_temp = some mn →
        s.temperature_trend ≠ none →
        s.temperature_trend =
          some (if mx > mn then "increasing" else "decreasing")) ∧
      ((s.max_temp = none ∨ s.min_temp = none) →
        s.temperature_trend ≠ none →
        s.temperature_trend = some "decreasing") :=
  C9_weather_trend_presence weatherC9 lapC9 (List.cons_ne_nil _ _)
    (List.cons_ne_nil _ _) rfl rfl
